import Mathlib

/-!
Verification of the progress-tracker bot (src/bot.py): a Telegram bot backed by
a Google Sheet with a Summary tab (Client | Project | Tasks | Completed | Status)
and a Logs tab (Timestamp | Username | Client | Project | Description).

The sheet tabs are embedded as `List (List String)` (rows of cells, all values
strings, exactly as `get_all_values` returns them).  The handlers are embedded
as pure functions from the command arguments and the store state to a reply,
the next store state and the list of store operations performed; a `storeOk`
flag models whether the remote sheet calls succeed or raise (the `try/except`
blocks in the handlers).

Python's string primitives (`strip`, `lower`, `int(...)`, `split`) are embedded
as character-list operations so that every definition evaluates inside the
kernel.
-/

/-- `str.strip()` on the underlying characters: drop whitespace from both ends. -/
def stripChars (l : List Char) : List Char :=
  ((l.dropWhile Char.isWhitespace).reverse.dropWhile Char.isWhitespace).reverse

/-- `s.strip()`. -/
def pyStrip (s : String) : String := ⟨stripChars s.data⟩

/-- `s.lower()`: character-wise lower-casing. -/
def pyLower (s : String) : String := ⟨s.data.map Char.toLower⟩

/-- `s.strip().lower()` — the normalisation used by every identity comparison
in bot.py. -/
def normKey (s : String) : String := pyLower (pyStrip s)

/-- Decimal value of a digit string; `none` when empty or any non-digit. -/
def digitsVal? (l : List Char) : Option Nat :=
  if l.isEmpty || !l.all Char.isDigit then none
  else some (l.foldl (fun n c => n * 10 + (c.toNat - 48)) 0)

/-- `int(s)` returning `none` on `ValueError`: an optional minus sign followed
by decimal digits. -/
def pyToInt? (s : String) : Option Int :=
  match s.data with
  | '-' :: rest => (digitsVal? rest).map (fun n => -(n : Int))
  | l => (digitsVal? l).map (fun n => (n : Int))

/-- Parsing of the Tasks cell in `compute_project_status` (bot.py lines
122-127): `tasks_str` falsy (empty) leaves `total_tasks = None`; otherwise
`int(tasks_str)` with `ValueError` mapped to `None`. -/
def parseTasks (s : String) : Option Int :=
  if s.isEmpty then none else pyToInt? s

/-- The scan of `compute_project_status` over `summary_rows[1:]`: first row of
length ≥ 3 whose Client and Project cells match the normalised key (bot.py
lines 115-128). -/
def findSummaryRowAux : List (List String) → String → String → Option (List String)
  | [], _, _ => none
  | row :: rest, cl, pl =>
    if row.length < 3 then findSummaryRowAux rest cl pl
    else if normKey (row.getD 0 "") == cl && normKey (row.getD 1 "") == pl then some row
    else findSummaryRowAux rest cl pl

/-- Lookup of the (client, project) Summary row, skipping the header row. -/
def findSummaryRow (summary : List (List String)) (cl pl : String) : Option (List String) :=
  findSummaryRowAux (summary.drop 1) cl pl

/-- The scan of `compute_project_status` over `log_rows[1:]`: count rows of
length ≥ 4 whose Client (index 2) and Project (index 3) cells match
(bot.py lines 142-149). -/
def countLogsAux : List (List String) → String → String → Nat
  | [], _, _ => 0
  | row :: rest, cl, pl =>
    if row.length < 4 then countLogsAux rest cl pl
    else if normKey (row.getD 2 "") == cl && normKey (row.getD 3 "") == pl then
      countLogsAux rest cl pl + 1
    else countLogsAux rest cl pl

/-- `compute_project_status(client, project)` (bot.py lines 97-152).
Returns `(completed, total_tasks, percentage)` with Python's `None` as `none`:
`(none, none, none)` when no Summary row matches, `(some 0, none, none)` when a
row matches but its Tasks cell is empty, non-numeric or ≤ 0, and otherwise the
count of matching Logs rows, the Tasks value and `completed / total * 100`. -/
def compute_project_status (summary logs : List (List String)) (client project : String) :
    Option Nat × Option Int × Option ℚ :=
  let cl := normKey client
  let pl := normKey project
  match findSummaryRow summary cl pl with
  | none => (none, none, none)
  | some row =>
    match parseTasks (pyStrip (row.getD 2 "")) with
    | none => (some 0, none, none)
    | some t =>
      if t ≤ 0 then (some 0, none, none)
      else
        let completed := countLogsAux (logs.drop 1) cl pl
        (some completed, some t, some (Rat.divInt ((completed : Int) * 100) t))

/-- The scan of `list_all_clients` over `rows[1:]` (bot.py lines 163-170):
collect each nonempty row's stripped Client cell when nonempty. -/
def collectClientsAux : List (List String) → List String
  | [] => []
  | row :: rest =>
    if row.isEmpty then collectClientsAux rest
    else if row.length < 1 then collectClientsAux rest
    else
      let c := pyStrip (row.getD 0 "")
      if c.isEmpty then collectClientsAux rest else c :: collectClientsAux rest

/-- Python's lexicographic string comparison, character code-point by
code-point: the order used by `sorted(...)`. -/
def charListLe : List Char → List Char → Bool
  | [], _ => true
  | _ :: _, [] => false
  | a :: as, b :: bs =>
    if a.toNat < b.toNat then true
    else if b.toNat < a.toNat then false
    else charListLe as bs

/-- `a <= b` for Python strings. -/
def strLe (a b : String) : Bool := charListLe a.data b.data

/-- The ordering relation used by `sorted(...)`. -/
def StrLeR (a b : String) : Prop := strLe a b = true

instance : DecidableRel StrLeR := fun a b => instDecidableEqBool (strLe a b) true

/-- `sorted(set(...))`: the sorted list of the distinct collected values. -/
def sortedDistinct (l : List String) : List String :=
  List.insertionSort StrLeR l.dedup

/-- `list_all_clients()` (bot.py lines 155-172). -/
def list_all_clients (rows : List (List String)) : List String :=
  sortedDistinct (collectClientsAux (rows.drop 1))

/-- The scan of `list_projects_for_client` over `rows[1:]` (bot.py lines
185-191): rows of length ≥ 2 whose Client cell matches the normalised client
contribute their stripped Project cell when nonempty. -/
def collectProjectsAux : List (List String) → String → List String
  | [], _ => []
  | row :: rest, cl =>
    if row.length < 2 then collectProjectsAux rest cl
    else
      let rp := pyStrip (row.getD 1 "")
      if normKey (row.getD 0 "") == cl && !rp.isEmpty then rp :: collectProjectsAux rest cl
      else collectProjectsAux rest cl

/-- `list_projects_for_client(client)` (bot.py lines 175-193). -/
def list_projects_for_client (rows : List (List String)) (client : String) : List String :=
  sortedDistinct (collectProjectsAux (rows.drop 1) (normKey client))

/-- The row appended by `log_to_sheet` (bot.py lines 91-94):
`[ts, username or "", client, project, description]`. -/
def logRow (ts username client project description : String) : List String :=
  [ts, if username.isEmpty then "" else username, client, project, description]

/-- `log_to_sheet(username, client, project, description)` (bot.py lines
78-94) acting on the Logs tab: a single `append_row`.  The timestamp string
`ts` is passed in (the code formats the current IST wall-clock time). -/
def log_to_sheet (ts username client project description : String)
    (logs : List (List String)) : List (List String) :=
  logs ++ [logRow ts username client project description]

/-- `" ".join(context.args)` followed by `[p.strip() for p in full_text.split("|")]`
(bot.py lines 254-255 and 302-303). -/
def splitPipeAux : List Char → List Char → List (List Char)
  | [], acc => [acc.reverse]
  | c :: rest, acc =>
    if c = '|' then acc.reverse :: splitPipeAux rest []
    else splitPipeAux rest (c :: acc)

/-- `s.split("|")`. -/
def pySplitPipe (s : String) : List String :=
  (splitPipeAux s.data []).map fun cs => ⟨cs⟩

/-- The argument parsing shared by `/log` and `/status`. -/
def parseParts (args : List String) : List String :=
  (pySplitPipe (String.intercalate " " args)).map pyStrip

/-- Store state: the two worksheet tabs of the sheet. -/
structure BotState where
  summary : List (List String)
  logs : List (List String)
deriving Repr, DecidableEq

/-- A remote-store operation performed by a handler. -/
inductive Effect
  | readSummary
  | readLogs
  | appendLog (row : List String)
deriving Repr, DecidableEq

/-- The outbound messages of bot.py, one constructor per `reply_text` call
site, carrying the interpolated values; `renderReply` gives the exact text. -/
inductive Reply
  | logUsage
  | logNeedThree
  | sheetWriteError
  | logConfirm (client project : String)
  | statusUsage
  | statusNeedTwo
  | sheetReadError
  | summaryRowMissing (client project : String)
  | totalNotSet
  | statusReport (client project : String) (completed : Option Nat) (total : Int)
      (pct : Option ℚ)
deriving Repr, DecidableEq

/-- Result of one handler invocation: the reply sent, the resulting store
state, and the store operations performed. -/
structure HandlerOut where
  reply : Reply
  state : BotState
  effects : List Effect
deriving Repr, DecidableEq

/-- `log_cmd` (bot.py lines 237-282).  `storeOk` models whether the
`log_to_sheet` call raises (caught by the `try/except` at lines 271-278);
`ts` is the formatted timestamp, `username` the resolved Telegram user name. -/
def log_cmd (args : List String) (username ts : String) (storeOk : Bool)
    (st : BotState) : HandlerOut :=
  if args.isEmpty then ⟨Reply.logUsage, st, []⟩
  else
    let parts := parseParts args
    if parts.length < 3 then ⟨Reply.logNeedThree, st, []⟩
    else
      let client := parts.getD 0 ""
      let project := parts.getD 1 ""
      let description := pyStrip (String.intercalate "|" (parts.drop 2))
      if storeOk then
        ⟨Reply.logConfirm client project,
         ⟨st.summary, log_to_sheet ts username client project description st.logs⟩,
         [Effect.appendLog (logRow ts username client project description)]⟩
      else ⟨Reply.sheetWriteError, st, []⟩

/-- `status_cmd` (bot.py lines 285-347).  `storeOk` models whether the
`compute_project_status` call raises (caught by the `try/except` at lines
316-323). -/
def status_cmd (args : List String) (storeOk : Bool) (st : BotState) : HandlerOut :=
  if args.isEmpty then ⟨Reply.statusUsage, st, []⟩
  else
    let parts := parseParts args
    if parts.length < 2 then ⟨Reply.statusNeedTwo, st, []⟩
    else
      let client := parts.getD 0 ""
      let project := parts.getD 1 ""
      if storeOk then
        let r := compute_project_status st.summary st.logs client project
        let effects := Effect.readSummary ::
          (if r.2.1.isSome then [Effect.readLogs] else [])
        match r with
        | (_, none, _) => ⟨Reply.summaryRowMissing client project, st, effects⟩
        | (completed, some t, pct) =>
          if t = 0 then ⟨Reply.totalNotSet, st, effects⟩
          else ⟨Reply.statusReport client project completed t pct, st, effects⟩
      else ⟨Reply.sheetReadError, st, []⟩

/-- Model of the `%.1f` float formatting of the percentage; the exact printed
digits are a floating-point detail outside this embedding. -/
def formatPct (q : ℚ) : String := toString q.num ++ "/" ++ toString q.den

/-- `f"\x7bpercentage:.1f\x7d%" if percentage is not None else "N/A"`. -/
def pctText : Option ℚ → String
  | some q => formatPct q ++ "%"
  | none => "N/A"

/-- `str(completed)`: Python prints `None` for a missing count. -/
def optNatText : Option Nat → String
  | some n => toString n
  | none => "None"

/-- The exact reply texts of bot.py (f-string braces written as `++`). -/
def renderReply : Reply → String
  | Reply.logUsage =>
      "Please use:\n/log client | project | description\n\nExample:\n/log Client A | Website Revamp | Homepage UI done"
  | Reply.logNeedThree =>
      "I need 3 parts separated by \x27|\x27:\nclient | project | description\n\nExample:\n/log Client A | Website Revamp | Homepage UI done"
  | Reply.sheetWriteError =>
      "❌ I couldn\x27t write to Google Sheets. Please check configuration on the server."
  | Reply.logConfirm client project =>
      "✅ Logged task for client \x27" ++ client ++ "\x27, project \x27" ++ project ++ "\x27."
  | Reply.statusUsage =>
      "Please use:\n/status client | project\n\nExample:\n/status Client A | Website Revamp"
  | Reply.statusNeedTwo =>
      "I need 2 parts separated by \x27|\x27:\nclient | project\n\nExample:\n/status Client A | Website Revamp"
  | Reply.sheetReadError =>
      "❌ I couldn\x27t read from Google Sheets. Please check configuration on the server."
  | Reply.summaryRowMissing client project =>
      "I couldn\x27t find this client/project in the Summary sheet.\n\nPlease add a row in the Summary tab with:\nClient | Project | Tasks (total)\nClient: " ++ client ++ "\nProject: " ++ project
  | Reply.totalNotSet =>
      "Total tasks for this project are not properly set in the Summary sheet."
  | Reply.statusReport client project completed total pct =>
      "📊 Status for " ++ client ++ " / " ++ project ++ ":\nCompleted: " ++ optNatText completed ++ " / " ++ toString total ++ "\nProgress: " ++ pctText pct

/-! ## Checked-access variants of the row scans

Python's `row[i]` raises `IndexError` when `i` is out of range.  The variants
below perform every cell access through `cellAccess`, which fails exactly like
the subscript; proving them equal to the total functions above shows the
length guards in bot.py make every scan safe on arbitrary (malformed) rows. -/

/-- `row[i]` with Python's out-of-range failure. -/
def cellAccess (row : List String) (i : Nat) : Except String String :=
  match row[i]? with
  | some v => Except.ok v
  | none => Except.error "IndexError: list index out of range"

/-- The Summary scan of `compute_project_status` with checked accesses. -/
def findSummaryRowAuxE : List (List String) → String → String →
    Except String (Option (List String))
  | [], _, _ => Except.ok none
  | row :: rest, cl, pl =>
    if row.length < 3 then findSummaryRowAuxE rest cl pl
    else do
      let c ← cellAccess row 0
      let p ← cellAccess row 1
      if normKey c == cl && normKey p == pl then Except.ok (some row)
      else findSummaryRowAuxE rest cl pl

/-- The Logs scan of `compute_project_status` with checked accesses. -/
def countLogsAuxE : List (List String) → String → String → Except String Nat
  | [], _, _ => Except.ok 0
  | row :: rest, cl, pl =>
    if row.length < 4 then countLogsAuxE rest cl pl
    else do
      let c ← cellAccess row 2
      let p ← cellAccess row 3
      let n ← countLogsAuxE rest cl pl
      if normKey c == cl && normKey p == pl then Except.ok (n + 1)
      else Except.ok n

/-- `compute_project_status` with checked accesses. -/
def compute_project_statusE (summary logs : List (List String))
    (client project : String) :
    Except String (Option Nat × Option Int × Option ℚ) := do
  let cl := normKey client
  let pl := normKey project
  let found ← findSummaryRowAuxE (summary.drop 1) cl pl
  match found with
  | none => Except.ok (none, none, none)
  | some row => do
    let tasksStr ← cellAccess row 2
    match parseTasks (pyStrip tasksStr) with
    | none => Except.ok (some 0, none, none)
    | some t =>
      if t ≤ 0 then Except.ok (some 0, none, none)
      else do
        let completed ← countLogsAuxE (logs.drop 1) cl pl
        Except.ok (some completed, some t, some (Rat.divInt ((completed : Int) * 100) t))

/-- The scan of `list_all_clients` with checked accesses. -/
def collectClientsAuxE : List (List String) → Except String (List String)
  | [] => Except.ok []
  | row :: rest =>
    if row.isEmpty then collectClientsAuxE rest
    else if row.length < 1 then collectClientsAuxE rest
    else do
      let c0 ← cellAccess row 0
      let c := pyStrip c0
      let acc ← collectClientsAuxE rest
      if c.isEmpty then Except.ok acc else Except.ok (c :: acc)

/-- `list_all_clients` with checked accesses. -/
def list_all_clientsE (rows : List (List String)) : Except String (List String) := do
  let collected ← collectClientsAuxE (rows.drop 1)
  Except.ok (sortedDistinct collected)

/-- The scan of `list_projects_for_client` with checked accesses. -/
def collectProjectsAuxE : List (List String) → String → Except String (List String)
  | [], _ => Except.ok []
  | row :: rest, cl =>
    if row.length < 2 then collectProjectsAuxE rest cl
    else do
      let c0 ← cellAccess row 0
      let p0 ← cellAccess row 1
      let rp := pyStrip p0
      let acc ← collectProjectsAuxE rest cl
      if normKey c0 == cl && !rp.isEmpty then Except.ok (rp :: acc)
      else Except.ok acc

/-- `list_projects_for_client` with checked accesses. -/
def list_projects_for_clientE (rows : List (List String)) (client : String) :
    Except String (List String) := do
  let collected ← collectProjectsAuxE (rows.drop 1) (normKey client)
  Except.ok (sortedDistinct collected)

/-- Modelled from the spec: TabularStore header-resolved column lookup —
"single-cell access by 1-based row and header-resolved column" (the header is
an ordered sequence of column names; `none` is `ColumnNotFound`). -/
def colIndex : List String → String → Option Nat
  | [], _ => none
  | h :: rest, name =>
    if h == name then some 0 else (colIndex rest name).map (· + 1)

/-! ## The claim's pair-iteration status policy

The spec describes `computeStatus` as iterating paired process/plan columns.
The definition below follows the claim text, for comparison with
`compute_project_status` as implemented. -/

/-- Follows the claim text (not the code): completedCount obtained by
iterating the columns, pairing each column with the column named
`<name> Plan`, and incrementing when the actual count is at least the paired
plan and the plan is positive. -/
def claimPairCompletedCount (header row : List String) : Nat :=
  (List.range header.length).countP fun i =>
    match colIndex header (header.getD i "" ++ " Plan") with
    | none => false
    | some j =>
      let plan := (pyToInt? (pyStrip (row.getD j ""))).getD 0
      let act := (pyToInt? (pyStrip (row.getD i ""))).getD 0
      decide (0 < plan ∧ plan ≤ act)

/-! ## The spec's AggregationLedger.addQuantity

No aggregation ledger exists in src/bot.py (the repository's only source
file); the operations below are modelled from the spec, §4.1-4.2. -/

/-- Modelled from the spec: `findRow(key)` — "linear scan over all rows;
case-insensitive, whitespace-trimmed comparison required for equality" on the
identity columns Client and Project. -/
def findRowIdx (header : List String) (rows : List (List String))
    (client project : String) : Option Nat := do
  let ci ← colIndex header "Client"
  let pj ← colIndex header "Project"
  rows.findIdx? fun row =>
    normKey (row.getD ci "") == normKey client &&
    normKey (row.getD pj "") == normKey project

/-- Modelled from the spec: `createRow(client, project)` — "appends a row with
identity columns populated and all other columns zero/empty". -/
def createRow (header : List String) (client project : String) : List String :=
  header.map fun h =>
    if h == "Client" then client else if h == "Project" then project else ""

/-- Modelled from the spec: `addQuantity(client, project, column, delta)` —
"ensures the row exists (find-or-create), reads current numeric value of
`column` (non-numeric or empty treated as 0 — never raises), writes
`current+delta`"; `none` is the `ColumnNotFound`/`SchemaError` outcome. -/
def addQuantity (header : List String) (rows : List (List String))
    (client project column : String) (delta : Int) :
    Option (List (List String)) := do
  let qi ← colIndex header column
  let (rows2, idx) :=
    match findRowIdx header rows client project with
    | some i => (rows, i)
    | none => (rows ++ [createRow header client project], rows.length)
  let row ← rows2[idx]?
  let current := (pyToInt? (pyStrip (row.getD qi ""))).getD 0
  some (rows2.set idx (row.set qi (toString (current + delta))))

/-! ## Helper lemmas -/

theorem bindOk {ε α β : Type} (a : α) (f : α → Except ε β) :
    (Except.ok a >>= f : Except ε β) = f a := rfl

theorem cellAccess_ok (row : List String) (i : Nat) (h : i < row.length) :
    cellAccess row i = Except.ok (row.getD i "") := by
  unfold cellAccess
  rw [List.getD_eq_getElem?_getD, List.getElem?_eq_getElem h]
  rfl

theorem findSummaryRowAuxE_eq (rows : List (List String)) (cl pl : String) :
    findSummaryRowAuxE rows cl pl = Except.ok (findSummaryRowAux rows cl pl) := by
  induction rows with
  | nil => rfl
  | cons row rest ih =>
    unfold findSummaryRowAuxE findSummaryRowAux
    by_cases h : row.length < 3
    · simp only [if_pos h, ih]
    · rw [if_neg h, if_neg h, cellAccess_ok row 0 (by omega), cellAccess_ok row 1 (by omega)]
      simp only [bindOk]
      split_ifs with hm
      · rfl
      · exact ih

theorem findSummaryRowAux_length (rows : List (List String)) (cl pl : String)
    (row : List String) (h : findSummaryRowAux rows cl pl = some row) :
    3 ≤ row.length := by
  induction rows with
  | nil => simp [findSummaryRowAux] at h
  | cons r rest ih =>
    unfold findSummaryRowAux at h
    by_cases hl : r.length < 3
    · rw [if_pos hl] at h; exact ih h
    · rw [if_neg hl] at h
      by_cases hm : (normKey (r.getD 0 "") == cl && normKey (r.getD 1 "") == pl) = true
      · rw [if_pos hm] at h
        cases h
        omega
      · rw [Bool.not_eq_true] at hm
        rw [hm] at h
        simp only [Bool.false_eq_true, if_false] at h
        exact ih h

theorem countLogsAuxE_eq (rows : List (List String)) (cl pl : String) :
    countLogsAuxE rows cl pl = Except.ok (countLogsAux rows cl pl) := by
  induction rows with
  | nil => rfl
  | cons row rest ih =>
    unfold countLogsAuxE countLogsAux
    by_cases h : row.length < 4
    · simp only [if_pos h, ih]
    · rw [if_neg h, if_neg h, cellAccess_ok row 2 (by omega), cellAccess_ok row 3 (by omega)]
      simp only [bindOk, ih]
      split_ifs with hm <;> rfl

theorem collectClientsAuxE_eq (rows : List (List String)) :
    collectClientsAuxE rows = Except.ok (collectClientsAux rows) := by
  induction rows with
  | nil => rfl
  | cons row rest ih =>
    unfold collectClientsAuxE collectClientsAux
    by_cases he : row.isEmpty = true
    · simp only [if_pos he, ih]
    · rw [Bool.not_eq_true] at he
      have hlen : 0 < row.length := by
        cases row with
        | nil => simp [List.isEmpty] at he
        | cons a l => simp
      have h1 : ¬ row.length < 1 := by omega
      rw [if_neg (by simp [he]), if_neg h1, if_neg (by simp [he]), if_neg h1,
        cellAccess_ok row 0 hlen]
      simp only [bindOk, ih]
      split_ifs with hc <;> rfl

theorem collectProjectsAuxE_eq (rows : List (List String)) (cl : String) :
    collectProjectsAuxE rows cl = Except.ok (collectProjectsAux rows cl) := by
  induction rows with
  | nil => rfl
  | cons row rest ih =>
    unfold collectProjectsAuxE collectProjectsAux
    by_cases h : row.length < 2
    · simp only [if_pos h, ih]
    · rw [if_neg h, if_neg h, cellAccess_ok row 0 (by omega), cellAccess_ok row 1 (by omega)]
      simp only [bindOk, ih]
      split_ifs with hm <;> rfl

theorem compute_project_statusE_eq (summary logs : List (List String))
    (client project : String) :
    compute_project_statusE summary logs client project =
      Except.ok (compute_project_status summary logs client project) := by
  unfold compute_project_statusE compute_project_status findSummaryRow
  dsimp only
  rw [findSummaryRowAuxE_eq, bindOk]
  cases hf : findSummaryRowAux (summary.drop 1) (normKey client) (normKey project) with
  | none => rfl
  | some row =>
    have hlen : 3 ≤ row.length := findSummaryRowAux_length _ _ _ _ hf
    dsimp only
    rw [cellAccess_ok row 2 (by omega), bindOk]
    cases parseTasks (pyStrip (row.getD 2 "")) with
    | none => rfl
    | some t =>
      dsimp only
      by_cases ht : t ≤ 0
      · simp only [if_pos ht]
      · simp only [if_neg ht, countLogsAuxE_eq, bindOk]

theorem charListLe_total : ∀ a b : List Char, charListLe a b = true ∨ charListLe b a = true
  | [], _ => Or.inl rfl
  | _ :: _, [] => Or.inr rfl
  | a :: as, b :: bs => by
    unfold charListLe
    by_cases h1 : a.toNat < b.toNat
    · left
      rw [if_pos h1]
    · by_cases h2 : b.toNat < a.toNat
      · right
        rw [if_pos h2]
      · rw [if_neg h1, if_neg h2, if_neg h2, if_neg h1]
        exact charListLe_total as bs

theorem charListLe_trans : ∀ a b c : List Char,
    charListLe a b = true → charListLe b c = true → charListLe a c = true
  | [], _, _, _, _ => rfl
  | _ :: _, [], _, h1, _ => by simp [charListLe] at h1
  | _ :: _, _ :: _, [], _, h2 => by simp [charListLe] at h2
  | a :: as, b :: bs, c :: cs, h1, h2 => by
    unfold charListLe at h1 h2 ⊢
    by_cases hab : a.toNat < b.toNat
    · by_cases hbc : b.toNat < c.toNat
      · rw [if_pos (by omega : a.toNat < c.toNat)]
      · rw [if_neg hbc] at h2
        by_cases hcb : c.toNat < b.toNat
        · rw [if_pos hcb] at h2
          simp at h2
        · rw [if_pos (by omega : a.toNat < c.toNat)]
    · rw [if_neg hab] at h1
      by_cases hba : b.toNat < a.toNat
      · rw [if_pos hba] at h1
        simp at h1
      · rw [if_neg hba] at h1
        by_cases hbc : b.toNat < c.toNat
        · rw [if_pos (by omega : a.toNat < c.toNat)]
        · rw [if_neg hbc] at h2
          by_cases hcb : c.toNat < b.toNat
          · rw [if_pos hcb] at h2
            simp at h2
          · rw [if_neg hcb] at h2
            rw [if_neg (by omega : ¬ a.toNat < c.toNat),
              if_neg (by omega : ¬ c.toNat < a.toNat)]
            exact charListLe_trans as bs cs h1 h2

instance : IsTotal String StrLeR :=
  ⟨fun a b => charListLe_total a.data b.data⟩

instance : IsTrans String StrLeR :=
  ⟨fun a b c h1 h2 => charListLe_trans a.data b.data c.data h1 h2⟩

theorem sortedDistinct_sorted (l : List String) : (sortedDistinct l).Sorted StrLeR :=
  List.sorted_insertionSort StrLeR l.dedup

theorem sortedDistinct_nodup (l : List String) : (sortedDistinct l).Nodup :=
  (List.perm_insertionSort StrLeR l.dedup).symm.nodup (List.nodup_dedup l)

theorem mem_sortedDistinct {a : String} {l : List String} :
    a ∈ sortedDistinct l ↔ a ∈ l := by
  unfold sortedDistinct
  rw [List.mem_insertionSort, List.mem_dedup]

theorem findSummaryRowAux_isSome (rows : List (List String)) (cl pl : String) :
    (findSummaryRowAux rows cl pl).isSome = true ↔
      ∃ row ∈ rows, 3 ≤ row.length ∧
        normKey (row.getD 0 "") = cl ∧ normKey (row.getD 1 "") = pl := by
  induction rows with
  | nil => simp [findSummaryRowAux]
  | cons row rest ih =>
    unfold findSummaryRowAux
    by_cases h : row.length < 3
    · rw [if_pos h, ih]
      constructor
      · rintro ⟨r, hr, hp⟩
        exact ⟨r, List.mem_cons_of_mem _ hr, hp⟩
      · rintro ⟨r, hr, hlen, hkey⟩
        rcases List.mem_cons.mp hr with he | hm
        · subst he
          omega
        · exact ⟨r, hm, hlen, hkey⟩
    · rw [if_neg h]
      by_cases hm : (normKey (row.getD 0 "") == cl && normKey (row.getD 1 "") == pl) = true
      · rw [if_pos hm]
        rw [Bool.and_eq_true, beq_iff_eq, beq_iff_eq] at hm
        simp only [Option.isSome_some, true_iff]
        exact ⟨row, List.mem_cons_self _ _, by omega, hm.1, hm.2⟩
      · rw [if_neg hm, ih]
        constructor
        · rintro ⟨r, hr, hp⟩
          exact ⟨r, List.mem_cons_of_mem _ hr, hp⟩
        · rintro ⟨r, hr, hlen, hk1, hk2⟩
          rcases List.mem_cons.mp hr with he | hmem
          · subst he
            exact absurd (by rw [Bool.and_eq_true, beq_iff_eq, beq_iff_eq]; exact ⟨hk1, hk2⟩) hm
          · exact ⟨r, hmem, hlen, hk1, hk2⟩

theorem mem_collectProjectsAux (rows : List (List String)) (cl p : String)
    (hp : p ∈ collectProjectsAux rows cl) :
    ∃ row ∈ rows, 2 ≤ row.length ∧
      normKey (row.getD 0 "") = cl ∧ pyStrip (row.getD 1 "") = p := by
  induction rows with
  | nil => simp [collectProjectsAux] at hp
  | cons row rest ih =>
    unfold collectProjectsAux at hp
    by_cases h : row.length < 2
    · rw [if_pos h] at hp
      obtain ⟨r, hr, h2⟩ := ih hp
      exact ⟨r, List.mem_cons_of_mem _ hr, h2⟩
    · rw [if_neg h] at hp
      by_cases hm : (normKey (row.getD 0 "") == cl && !(pyStrip (row.getD 1 "")).isEmpty) = true
      · rw [if_pos hm] at hp
        rw [Bool.and_eq_true, beq_iff_eq] at hm
        rcases List.mem_cons.mp hp with he | hmem
        · exact ⟨row, List.mem_cons_self _ _, by omega, hm.1, he.symm⟩
        · obtain ⟨r, hr, h2⟩ := ih hmem
          exact ⟨r, List.mem_cons_of_mem _ hr, h2⟩
      · rw [if_neg hm] at hp
        obtain ⟨r, hr, h2⟩ := ih hp
        exact ⟨r, List.mem_cons_of_mem _ hr, h2⟩

theorem colIndex_spec : ∀ (header : List String) (name : String) (i : Nat),
    colIndex header name = some i → i < header.length ∧ header.getD i "" = name
  | [], name, i, h => by simp [colIndex] at h
  | a :: rest, name, i, h => by
    unfold colIndex at h
    by_cases ha : (a == name) = true
    · rw [if_pos ha] at h
      cases h
      rw [beq_iff_eq] at ha
      exact ⟨by simp, ha⟩
    · rw [if_neg ha] at h
      cases hr : colIndex rest name with
      | none =>
        rw [hr] at h
        simp at h
      | some j =>
        rw [hr] at h
        obtain ⟨hlt, hget⟩ := colIndex_spec rest name j hr
        have hij : j + 1 = i := by simpa using h
        subst hij
        exact ⟨Nat.succ_lt_succ hlt, by simpa [List.getD_cons_succ] using hget⟩

theorem set_append_last {α : Type} (l : List α) (a b : α) :
    (l ++ [a]).set l.length b = l ++ [b] := by
  induction l with
  | nil => rfl
  | cons x xs ih => simp [List.set, ih]

theorem compute_status_total_pos (summary logs : List (List String))
    (client project : String) (t : Int)
    (h : (compute_project_status summary logs client project).2.1 = some t) :
    0 < t := by
  unfold compute_project_status at h
  dsimp only at h
  cases hf : findSummaryRow summary (normKey client) (normKey project) with
  | none =>
    rw [hf] at h
    simp at h
  | some row =>
    rw [hf] at h
    dsimp only at h
    cases hp : parseTasks (pyStrip (row.getD 2 "")) with
    | none =>
      rw [hp] at h
      simp at h
    | some t2 =>
      rw [hp] at h
      dsimp only at h
      by_cases ht : t2 ≤ 0
      · rw [if_pos ht] at h
        simp at h
      · rw [if_neg ht] at h
        simp only [Option.some.injEq] at h
        omega

theorem getD_map_lt (f : String → String) (l : List String) (i : Nat)
    (h : i < l.length) : (l.map f).getD i "" = f (l.getD i "") := by
  rw [List.getD_eq_getElem?_getD, List.getD_eq_getElem?_getD, List.getElem?_map,
    List.getElem?_eq_getElem h]
  rfl

theorem getD_set_self (l : List String) (i : Nat) (v : String) (h : i < l.length) :
    (l.set i v).getD i "" = v := by
  rw [List.getD_eq_getElem?_getD, List.getElem?_set_eq_of_lt v h]
  rfl

theorem getD_set_ne (l : List String) (i j : Nat) (v : String) (h : i ≠ j) :
    (l.set i v).getD j "" = l.getD j "" := by
  rw [List.getD_eq_getElem?_getD, List.getD_eq_getElem?_getD, List.getElem?_set_ne h]

theorem optBindSome {α β : Type} (a : α) (f : α → Option β) :
    ((some a : Option α) >>= f) = f a := rfl

/-- `status_cmd` never changes the store, whatever the arguments and outcome. -/
theorem status_cmd_state (args : List String) (ok : Bool) (st : BotState) :
    (status_cmd args ok st).state = st := by
  unfold status_cmd
  dsimp only
  by_cases h1 : args.isEmpty = true
  · rw [if_pos h1]
  · rw [if_neg h1]
    by_cases h2 : (parseParts args).length < 2
    · rw [if_pos h2]
    · rw [if_neg h2]
      by_cases h3 : ok = true
      · rw [if_pos h3]
        rcases hr : compute_project_status st.summary st.logs ((parseParts args).getD 0 "")
          ((parseParts args).getD 1 "") with ⟨completed, tot, pct⟩
        cases tot with
        | none => rfl
        | some t =>
          dsimp only
          by_cases ht : t = 0
          · rw [if_pos ht]
          · rw [if_neg ht]
      · rw [if_neg h3]

/-! ## Claims -/

/-- C10: for every sheet contents including malformed rows, every row-scanning
operation (the Summary and Logs scans of `compute_project_status`, client
listing, project listing) skips rows with fewer cells than the columns it
references: the checked-access variants, which fail exactly where a Python
subscript would raise `IndexError`, always return `ok` with the same result,
so no scan ever performs an out-of-range cell access. -/
theorem row_scans_never_raise (summary logs rows : List (List String))
    (client project : String) :
    compute_project_statusE summary logs client project =
      Except.ok (compute_project_status summary logs client project) ∧
    list_all_clientsE rows = Except.ok (list_all_clients rows) ∧
    list_projects_for_clientE rows client =
      Except.ok (list_projects_for_client rows client) := by
  refine ⟨compute_project_statusE_eq _ _ _ _, ?_, ?_⟩
  · unfold list_all_clientsE list_all_clients
    rw [collectClientsAuxE_eq, bindOk]
  · unfold list_projects_for_clientE list_projects_for_client
    rw [collectProjectsAuxE_eq, bindOk]

/-- C2: when no Summary row matches the (client, project) pair, or the matching
row's Tasks cell is missing/non-numeric/not positive, `compute_project_status`
returns the not-configured sentinels (`total = None`) — and, being a total
function (see also `row_scans_never_raise`), raises no exception. -/
theorem compute_status_not_configured (summary logs : List (List String))
    (client project : String)
    (h : ∀ row, findSummaryRow summary (normKey client) (normKey project) = some row →
      parseTasks (pyStrip (row.getD 2 "")) = none ∨
      ∃ t, parseTasks (pyStrip (row.getD 2 "")) = some t ∧ t ≤ 0) :
    (compute_project_status summary logs client project = (none, none, none) ∨
     compute_project_status summary logs client project = (some 0, none, none)) ∧
    compute_project_statusE summary logs client project =
      Except.ok (compute_project_status summary logs client project) := by
  refine ⟨?_, compute_project_statusE_eq _ _ _ _⟩
  unfold compute_project_status
  dsimp only
  cases hf : findSummaryRow summary (normKey client) (normKey project) with
  | none => exact Or.inl rfl
  | some row =>
    dsimp only
    rcases h row hf with hp | ⟨t, hp, ht⟩
    · rw [hp]
      exact Or.inr rfl
    · rw [hp]
      dsimp only
      rw [if_pos ht]
      exact Or.inr rfl

/-- C2 witness: a Summary row whose Tasks cell is non-numeric yields the
sentinel result. -/
theorem compute_status_not_configured_witness :
    (compute_project_status [["Client", "Project", "Tasks"], ["Acme", "Site1", "abc"]] []
        "Acme" "Site1" = (none, none, none) ∨
     compute_project_status [["Client", "Project", "Tasks"], ["Acme", "Site1", "abc"]] []
        "Acme" "Site1" = (some 0, none, none)) ∧
    compute_project_statusE [["Client", "Project", "Tasks"], ["Acme", "Site1", "abc"]] []
        "Acme" "Site1" =
      Except.ok (compute_project_status
        [["Client", "Project", "Tasks"], ["Acme", "Site1", "abc"]] [] "Acme" "Site1") :=
  compute_status_not_configured _ _ _ _ (fun row hrow => by
    cases hrow
    exact Or.inl (by decide))

/-- C3: row lookup matches by case-insensitive, whitespace-trimmed equality:
two queries with the same normalised keys give identical results in both the
status computation and the project listing, and a Summary row is found exactly
when some data row's Client and Project cells normalise to the queried keys. -/
theorem lookup_case_insensitive (summary logs : List (List String))
    (c c2 p p2 : String)
    (hc : normKey c = normKey c2) (hp : normKey p = normKey p2) :
    compute_project_status summary logs c p = compute_project_status summary logs c2 p2 ∧
    list_projects_for_client summary c = list_projects_for_client summary c2 ∧
    ((findSummaryRow summary (normKey c) (normKey p)).isSome = true ↔
      ∃ row ∈ summary.drop 1, 3 ≤ row.length ∧
        normKey (row.getD 0 "") = normKey c ∧ normKey (row.getD 1 "") = normKey p) := by
  refine ⟨?_, ?_, findSummaryRowAux_isSome _ _ _⟩
  · unfold compute_project_status
    rw [hc, hp]
  · unfold list_projects_for_client
    rw [hc]

/-- C3 witness: "acme" and " ACME " (mismatched case and stray blanks) resolve
to the same stored row. -/
theorem lookup_case_insensitive_witness :
    compute_project_status [["Client", "Project", "Tasks"], ["Acme", "Site1", "5"]]
        [] "acme" "Site1" =
      compute_project_status [["Client", "Project", "Tasks"], ["Acme", "Site1", "5"]]
        [] " ACME " "site1" ∧
    list_projects_for_client [["Client", "Project", "Tasks"], ["Acme", "Site1", "5"]]
        "acme" =
      list_projects_for_client [["Client", "Project", "Tasks"], ["Acme", "Site1", "5"]]
        " ACME " ∧
    ((findSummaryRow [["Client", "Project", "Tasks"], ["Acme", "Site1", "5"]]
        (normKey "acme") (normKey "Site1")).isSome = true ↔
      ∃ row ∈ ([["Client", "Project", "Tasks"], ["Acme", "Site1", "5"]] :
          List (List String)).drop 1, 3 ≤ row.length ∧
        normKey (row.getD 0 "") = normKey "acme" ∧
        normKey (row.getD 1 "") = normKey "Site1") :=
  lookup_case_insensitive _ _ _ _ _ _ (by decide) (by decide)

/-- C9: the status computation never returns `total = 0` (a found row with a
bad Tasks cell yields the `None` sentinel instead), so the `total == 0` branch
of `status_cmd` — the "Total tasks for this project are not properly set"
reply — is unreachable. -/
theorem total_tasks_never_zero (summary logs : List (List String))
    (client project : String) (args : List String) (ok : Bool) (st : BotState) :
    (compute_project_status summary logs client project).2.1 ≠ some 0 ∧
    (status_cmd args ok st).reply ≠ Reply.totalNotSet := by
  constructor
  · intro h
    exact absurd (compute_status_total_pos _ _ _ _ 0 h) (lt_irrefl 0)
  · unfold status_cmd
    dsimp only
    by_cases h1 : args.isEmpty = true
    · rw [if_pos h1]
      simp
    · rw [if_neg h1]
      by_cases h2 : (parseParts args).length < 2
      · rw [if_pos h2]
        simp
      · rw [if_neg h2]
        by_cases h3 : ok = true
        · rw [if_pos h3]
          rcases hr : compute_project_status st.summary st.logs ((parseParts args).getD 0 "")
            ((parseParts args).getD 1 "") with ⟨completed, tot, pct⟩
          cases tot with
          | none => simp
          | some t =>
            have hpos : 0 < t :=
              compute_status_total_pos st.summary st.logs _ _ t (by rw [hr])
            dsimp only
            rw [if_neg (by omega : ¬ t = 0)]
            simp
        · rw [if_neg h3]
          simp

/-- C5: `log_to_sheet` appends exactly the one row
[timestamp, actor, client, project, description]; `log_cmd` only ever appends
(at most one row, existing Logs rows are a preserved prefix) and leaves the
Summary tab alone, and `status_cmd` never mutates the store at all — the log
is append-only and write-once. -/
theorem log_append_only (ts username client project description : String)
    (logs : List (List String)) (args : List String) (u ts2 : String)
    (ok : Bool) (st st2 : BotState) :
    log_to_sheet ts username client project description logs =
      logs ++ [[ts, if username.isEmpty then "" else username,
        client, project, description]] ∧
    (∃ tail, (log_cmd args u ts2 ok st).state.logs = st.logs ++ tail ∧
      tail.length ≤ 1) ∧
    (log_cmd args u ts2 ok st).state.summary = st.summary ∧
    (status_cmd args ok st2).state = st2 := by
  refine ⟨rfl, ?_, ?_, status_cmd_state _ _ _⟩
  · unfold log_cmd
    dsimp only
    by_cases h1 : args.isEmpty = true
    · rw [if_pos h1]
      exact ⟨[], by simp, by simp⟩
    · rw [if_neg h1]
      by_cases h2 : (parseParts args).length < 3
      · rw [if_pos h2]
        exact ⟨[], by simp, by simp⟩
      · rw [if_neg h2]
        by_cases h3 : ok = true
        · rw [if_pos h3]
          exact ⟨[logRow ts2 u ((parseParts args).getD 0 "") ((parseParts args).getD 1 "")
            (pyStrip (String.intercalate "|" ((parseParts args).drop 2)))], rfl, by simp⟩
        · rw [if_neg h3]
          exact ⟨[], by simp, by simp⟩
  · unfold log_cmd
    dsimp only
    by_cases h1 : args.isEmpty = true
    · rw [if_pos h1]
    · rw [if_neg h1]
      by_cases h2 : (parseParts args).length < 3
      · rw [if_pos h2]
      · rw [if_neg h2]
        by_cases h3 : ok = true
        · rw [if_pos h3]
        · rw [if_neg h3]

/-- C1 counterexample: on a Summary row with a satisfied process/plan pair
("Rough Turning" 10 ≥ "Rough Turning Plan" 10, plan > 0) and an empty Logs
tab, pair iteration per the claim gives completedCount 1, but the code
returns completed 0 — `compute_project_status` counts matching Logs rows and
never looks at process/plan columns. -/
theorem compute_status_ignores_plan_pairs :
    (compute_project_status
        [["Client", "Project", "Tasks", "Rough Turning", "Rough Turning Plan"],
         ["Acme", "Site1", "5", "10", "10"]]
        [["Timestamp", "Username", "Client", "Project", "Description"]]
        "Acme" "Site1").1 = some 0 ∧
    claimPairCompletedCount
        ["Client", "Project", "Tasks", "Rough Turning", "Rough Turning Plan"]
        ["Acme", "Site1", "5", "10", "10"] = 1 := by
  exact ⟨by decide, by decide⟩

/-- C1 (amended): for every client and project with a matching Summary row
whose Tasks cell parses to a positive integer, `compute_project_status`
returns (completedCount, plannedTotal, percentage) where completedCount is the
number of Logs data rows whose Client and Project cells match
(case-insensitive, trimmed), plannedTotal is the Tasks value, and
percentage = completedCount / totalTasks × 100. -/
theorem compute_status_formula (summary logs : List (List String))
    (client project : String) (row : List String) (t : Int)
    (hrow : findSummaryRow summary (normKey client) (normKey project) = some row)
    (ht : parseTasks (pyStrip (row.getD 2 "")) = some t) (hpos : 0 < t) :
    compute_project_status summary logs client project =
      (some (countLogsAux (logs.drop 1) (normKey client) (normKey project)),
       some t,
       some ((countLogsAux (logs.drop 1) (normKey client) (normKey project) : ℚ) /
         (t : ℚ) * 100)) := by
  unfold compute_project_status
  dsimp only
  rw [hrow]
  dsimp only
  rw [ht]
  dsimp only
  rw [if_neg (by omega : ¬ t ≤ 0)]
  simp only [Prod.mk.injEq, Option.some.injEq, true_and]
  rw [Rat.divInt_eq_div]
  push_cast
  ring

/-- C1 witness: one matching Logs row against Tasks = 5 reports 1/5 = 20%. -/
theorem compute_status_formula_witness :
    compute_project_status [["Client", "Project", "Tasks"], ["Acme", "Site1", "5"]]
        [["Timestamp", "Username", "Client", "Project", "Description"],
         ["t1", "u", "acme", "site1", "done"]] "ACME" "Site1" =
      (some (countLogsAux
          (([["Timestamp", "Username", "Client", "Project", "Description"],
             ["t1", "u", "acme", "site1", "done"]] : List (List String)).drop 1)
          (normKey "ACME") (normKey "Site1")),
       some 5,
       some (((countLogsAux
          (([["Timestamp", "Username", "Client", "Project", "Description"],
             ["t1", "u", "acme", "site1", "done"]] : List (List String)).drop 1)
          (normKey "ACME") (normKey "Site1")) : ℚ) / (5 : ℚ) * 100)) :=
  compute_status_formula _ _ _ _ ["Acme", "Site1", "5"] 5
    (by decide) (by decide) (by decide)

/-- C4 counterexample: the option lists are not case-normalised — two Summary
rows whose Client cells differ only in case are both returned (deduplication
is by exact trimmed string). -/
theorem client_list_not_case_normalized :
    list_all_clients [["Client", "Project"], ["Acme", "P"], ["ACME", "Q"]] =
      ["ACME", "Acme"] ∧
    normKey "ACME" = normKey "Acme" ∧ "ACME" ≠ "Acme" := by
  exact ⟨by decide, by decide, by decide⟩

/-- C4 (amended): the client list and per-client project list are sorted
lexicographically and deduplicated by exact (trimmed, case-preserving) string
equality — not case-normalised — and every project listed for a client comes
from a Summary data row whose Client cell matches that client
case-insensitively. -/
theorem option_lists_sorted_dedup_consistent (rows : List (List String))
    (client : String) :
    (list_all_clients rows).Sorted StrLeR ∧ (list_all_clients rows).Nodup ∧
    (list_projects_for_client rows client).Sorted StrLeR ∧
    (list_projects_for_client rows client).Nodup ∧
    ∀ p ∈ list_projects_for_client rows client,
      ∃ row ∈ rows.drop 1, 2 ≤ row.length ∧
        normKey (row.getD 0 "") = normKey client ∧ pyStrip (row.getD 1 "") = p := by
  refine ⟨sortedDistinct_sorted _, sortedDistinct_nodup _, sortedDistinct_sorted _,
    sortedDistinct_nodup _, ?_⟩
  intro p hp
  exact mem_collectProjectsAux _ _ _ (mem_sortedDistinct.mp hp)

/-- C4 witness: project "P1" listed for client "acme" comes from the row
whose Client cell is "Acme". -/
theorem option_lists_sorted_dedup_consistent_witness :
    ∃ row ∈ ([["Client", "Project"], ["Acme", "P1"]] : List (List String)).drop 1,
      2 ≤ row.length ∧ normKey (row.getD 0 "") = normKey "acme" ∧
      pyStrip (row.getD 1 "") = "P1" :=
  (option_lists_sorted_dedup_consistent [["Client", "Project"], ["Acme", "P1"]]
    "acme").2.2.2.2 "P1" (by decide)

/-- C7: when the store raises (storeOk = false), both handlers catch the error
at the boundary and reply with the user-visible error text, leave the store
untouched, and produce no confirmation — the handlers are total functions, so
no exception propagates out to abort the service. -/
theorem store_errors_caught (args args2 : List String) (u ts : String)
    (st st2 : BotState)
    (h1 : args.isEmpty = false) (h2 : ¬ (parseParts args).length < 3)
    (h3 : args2.isEmpty = false) (h4 : ¬ (parseParts args2).length < 2) :
    log_cmd args u ts false st = ⟨Reply.sheetWriteError, st, []⟩ ∧
    status_cmd args2 false st2 = ⟨Reply.sheetReadError, st2, []⟩ := by
  constructor
  · unfold log_cmd
    dsimp only
    rw [if_neg (by simp [h1]), if_neg h2, if_neg (by simp)]
  · unfold status_cmd
    dsimp only
    rw [if_neg (by simp [h3]), if_neg h4, if_neg (by simp)]

/-- C7 witness. -/
theorem store_errors_caught_witness :
    log_cmd ["a|b|c"] "u" "t" false ⟨[], []⟩ =
      ⟨Reply.sheetWriteError, ⟨[], []⟩, []⟩ ∧
    status_cmd ["a|b"] false ⟨[], []⟩ = ⟨Reply.sheetReadError, ⟨[], []⟩, []⟩ :=
  store_errors_caught _ _ _ _ _ _ (by decide) (by decide) (by decide) (by decide)

/-- C8: a command whose arguments fail validation (no arguments, or fewer
'|'-separated parts than required) gets a usage re-prompt; the store is
neither read nor written and the state is unchanged. -/
theorem invalid_args_reprompt (args args2 : List String) (u ts : String)
    (ok ok2 : Bool) (st st2 : BotState)
    (h1 : args.isEmpty = true ∨ (parseParts args).length < 3)
    (h2 : args2.isEmpty = true ∨ (parseParts args2).length < 2) :
    ((log_cmd args u ts ok st).state = st ∧ (log_cmd args u ts ok st).effects = [] ∧
      ((log_cmd args u ts ok st).reply = Reply.logUsage ∨
       (log_cmd args u ts ok st).reply = Reply.logNeedThree)) ∧
    ((status_cmd args2 ok2 st2).state = st2 ∧
      (status_cmd args2 ok2 st2).effects = [] ∧
      ((status_cmd args2 ok2 st2).reply = Reply.statusUsage ∨
       (status_cmd args2 ok2 st2).reply = Reply.statusNeedTwo)) := by
  constructor
  · unfold log_cmd
    dsimp only
    by_cases he : args.isEmpty = true
    · rw [if_pos he]
      exact ⟨rfl, rfl, Or.inl rfl⟩
    · have hlen : (parseParts args).length < 3 := by
        rcases h1 with h | h
        · exact absurd h he
        · exact h
      rw [if_neg he, if_pos hlen]
      exact ⟨rfl, rfl, Or.inr rfl⟩
  · unfold status_cmd
    dsimp only
    by_cases he : args2.isEmpty = true
    · rw [if_pos he]
      exact ⟨rfl, rfl, Or.inl rfl⟩
    · have hlen : (parseParts args2).length < 2 := by
        rcases h2 with h | h
        · exact absurd h he
        · exact h
      rw [if_neg he, if_pos hlen]
      exact ⟨rfl, rfl, Or.inr rfl⟩

/-- C8 witness: `/log` with no arguments and `/status` with a single part. -/
theorem invalid_args_reprompt_witness :
    ((log_cmd [] "u" "t" true ⟨[], []⟩).state = ⟨[], []⟩ ∧
      (log_cmd [] "u" "t" true ⟨[], []⟩).effects = [] ∧
      ((log_cmd [] "u" "t" true ⟨[], []⟩).reply = Reply.logUsage ∨
       (log_cmd [] "u" "t" true ⟨[], []⟩).reply = Reply.logNeedThree)) ∧
    ((status_cmd ["OnlyClient"] true ⟨[], []⟩).state = ⟨[], []⟩ ∧
      (status_cmd ["OnlyClient"] true ⟨[], []⟩).effects = [] ∧
      ((status_cmd ["OnlyClient"] true ⟨[], []⟩).reply = Reply.statusUsage ∨
       (status_cmd ["OnlyClient"] true ⟨[], []⟩).reply = Reply.statusNeedTwo)) :=
  invalid_args_reprompt _ _ _ _ _ _ _ _ (Or.inl (by decide)) (Or.inr (by decide))

/-- C6: for a (client, project) pair with no matching row, `addQuantity`
(modelled from the spec — no aggregation ledger exists in src/bot.py) appends
exactly one row: identity columns carry the client and project, the target
column carries 0 + delta (the empty cell read as 0), and every other
non-identity column is empty. -/
theorem addQuantity_creates_row (header : List String) (rows : List (List String))
    (client project column : String) (delta : Int) (ci pj qi : Nat)
    (hci : colIndex header "Client" = some ci)
    (hpj : colIndex header "Project" = some pj)
    (hqi : colIndex header column = some qi)
    (hcC : column ≠ "Client") (hcP : column ≠ "Project")
    (hnf : findRowIdx header rows client project = none) :
    ∃ newRow,
      addQuantity header rows client project column delta = some (rows ++ [newRow]) ∧
      newRow.length = header.length ∧
      newRow.getD ci "" = client ∧ newRow.getD pj "" = project ∧
      newRow.getD qi "" = toString ((0 : Int) + delta) ∧
      ∀ j, j < header.length → header.getD j "" ≠ "Client" →
        header.getD j "" ≠ "Project" → j ≠ qi → newRow.getD j "" = "" := by
  obtain ⟨hciLt, hciGet⟩ := colIndex_spec header "Client" ci hci
  obtain ⟨hpjLt, hpjGet⟩ := colIndex_spec header "Project" pj hpj
  obtain ⟨hqiLt, hqiGet⟩ := colIndex_spec header column qi hqi
  have hqc : qi ≠ ci := fun he => hcC (by rw [← hqiGet, he, hciGet])
  have hqp : qi ≠ pj := fun he => hcP (by rw [← hqiGet, he, hpjGet])
  have hcrLen : (createRow header client project).length = header.length :=
    List.length_map _ _
  have hcell : (createRow header client project).getD qi "" = "" := by
    unfold createRow
    rw [getD_map_lt _ _ _ hqiLt, hqiGet]
    rw [if_neg (by simp [hcC]), if_neg (by simp [hcP])]
  refine ⟨(createRow header client project).set qi (toString ((0 : Int) + delta)),
    ?_, ?_, ?_, ?_, ?_, ?_⟩
  · unfold addQuantity
    rw [hqi, optBindSome, hnf]
    dsimp only
    rw [List.getElem?_concat_length, optBindSome, hcell]
    have hcur : (pyToInt? (pyStrip "")).getD 0 = (0 : Int) := rfl
    rw [hcur, set_append_last]
  · rw [List.length_set, hcrLen]
  · rw [getD_set_ne _ _ _ _ hqc]
    unfold createRow
    rw [getD_map_lt _ _ _ hciLt, hciGet, if_pos (by simp)]
  · rw [getD_set_ne _ _ _ _ hqp]
    unfold createRow
    rw [getD_map_lt _ _ _ hpjLt, hpjGet, if_neg (by simp), if_pos (by simp)]
  · exact getD_set_self _ _ _ (by rw [hcrLen]; exact hqiLt)
  · intro j hj hjC hjP hjq
    rw [getD_set_ne _ _ _ _ (fun he => hjq he.symm)]
    unfold createRow
    rw [getD_map_lt _ _ _ hj]
    rw [if_neg (by simpa using hjC), if_neg (by simpa using hjP)]

/-- C6 witness: adding 4 to "Rough Turning" for a fresh (Acme, Site1) pair
creates the single row ["Acme", "Site1", "", "4"]. -/
theorem addQuantity_creates_row_witness :
    ∃ newRow,
      addQuantity ["Client", "Project", "Tasks", "Rough Turning"] []
          "Acme" "Site1" "Rough Turning" 4 = some ([] ++ [newRow]) ∧
      newRow.length = (["Client", "Project", "Tasks", "Rough Turning"] :
        List String).length ∧
      newRow.getD 0 "" = "Acme" ∧ newRow.getD 1 "" = "Site1" ∧
      newRow.getD 3 "" = toString ((0 : Int) + 4) ∧
      ∀ j, j < (["Client", "Project", "Tasks", "Rough Turning"] :
          List String).length →
        (["Client", "Project", "Tasks", "Rough Turning"] :
          List String).getD j "" ≠ "Client" →
        (["Client", "Project", "Tasks", "Rough Turning"] :
          List String).getD j "" ≠ "Project" →
        j ≠ 3 → newRow.getD j "" = "" :=
  addQuantity_creates_row ["Client", "Project", "Tasks", "Rough Turning"] []
    "Acme" "Site1" "Rough Turning" 4 0 1 3
    (by decide) (by decide) (by decide) (by decide) (by decide) (by decide)
